import Mathlib

/-!
Shallow embedding of the ruleset-building core of the
`terraform-provider-github` repository (file `resource_github_repo_ruleset.go`,
given as `src/unnamed/part_000`): `buildRulesetRequest`, `expandBypassActors`,
`expandConditions`, `expandRules` and `flattenAndSetRulesetConditions`.

Modelling decisions:
* A `schema.ResourceData` value is modelled by the `Config` structure below.
  A field read with `d.GetOk(name)` is an `Option`: `none` models
  `ok = false` (field absent / unset), `some v` models `ok = true` with
  value `v`.  A field read with `d.Get(name)` (the five boolean toggles and
  the scalar strings) is a plain field.
* Terraform list blocks may contain null elements (`v == nil` in the Go
  code), so list-block fields are `List (Option Block)`.
* Go `nil` slices versus allocated slices are distinguished with `Option`:
  `none` models a nil slice, `some l` a non-nil slice with elements `l`.
* The `json.Marshal` step produces an opaque parameter blob; it is modelled
  by the tagged union `RuleParameters` over the per-kind parameter records,
  which the marshalling injectively encodes.
* Go `errors.New` / `fmt.Errorf` failures are the constructors of
  `BuildErr`; fallible functions return `Except BuildErr α`.
* `strconv.Atoi` on a 64-bit platform is modelled by `atoi` below,
  including its sign handling and the int64 range check.
-/

namespace GithubRuleset

/-- Error outcomes of the build, mirroring the `errors.New` / `fmt.Errorf`
calls of the source: duplicate `conditions` block, duplicate structured rule
block of a given kind, an unparseable composite check token, and an
integration id that is not a valid integer. -/
inductive BuildErr where
  | duplicateConditionsBlock : BuildErr
  | duplicateRuleBlock (kind : String) : BuildErr
  | malformedCheckToken (token : String) : BuildErr
  | invalidIntegrationId (value : String) : BuildErr
  deriving DecidableEq, Repr

/-- One element of the set-valued `bypass_actors` block: the
`actor_id` (Go `int`) and `actor_type` fields read in `expandBypassActors`. -/
structure BypassActorBlock where
  actor_id : Int
  actor_type : String
  deriving DecidableEq, Repr

/-- One element of the `conditions` list block, with its two nested
set fields `include` and `exclude` (read via `expandNestedSet`). -/
structure ConditionsBlock where
  Include : List String
  Exclude : List String
  deriving DecidableEq, Repr

/-- One element of the `rule_pull_request` list block: the five scalar
fields read in `expandRules`. -/
structure PullRequestBlock where
  dismiss_stale_reviews_on_push : Bool
  require_code_owner_review : Bool
  require_last_push_approval : Bool
  required_approving_review_count : Int
  required_review_thread_resolution : Bool
  deriving DecidableEq, Repr

/-- One element of the `rule_required_status_checks` list block: the
set of composite check tokens and the strict-policy flag. -/
structure StatusChecksBlock where
  required_status_checks : List String
  strict_required_status_checks_policy : Bool
  deriving DecidableEq, Repr

/-- The configuration state (`schema.ResourceData`) as read by the build
functions.  `Option` fields are the ones read with `d.GetOk`. -/
structure Config where
  name : String
  target : String
  enforcement : String
  bypass_actors : Option (List BypassActorBlock)
  conditions : Option (List (Option ConditionsBlock))
  rule_creation : Bool
  rule_deletion : Bool
  rule_required_linear_history : Bool
  rule_required_signatures : Bool
  rule_non_fast_forward : Bool
  rule_required_deployments : Option (List String)
  rule_pull_request : Option (List (Option PullRequestBlock))
  rule_required_status_checks : Option (List (Option StatusChecksBlock))
  deriving DecidableEq, Repr

/-- Go struct `github.BypassActor` as populated by `expandBypassActors`
(`ActorID` and `ActorType` pointers, always set). -/
structure BypassActor where
  actorID : Int
  actorType : String
  deriving DecidableEq, Repr

/-- Go struct `github.RulesetRefConditionParameters`: the include/exclude ref-name
patterns. -/
structure RulesetRefConditionParameters where
  Include : List String
  Exclude : List String
  deriving DecidableEq, Repr

/-- Go struct `github.RulesetConditions` as built in `buildRulesetRequest`: only the
`RefName` member is populated (the repository-name member is left nil). -/
structure RulesetConditions where
  refName : Option RulesetRefConditionParameters
  deriving DecidableEq, Repr

/-- Go struct `github.RequiredDeploymentEnvironmentsRuleParameters`. -/
structure RequiredDeploymentEnvironmentsRuleParameters where
  requiredDeploymentEnvironments : List String
  deriving DecidableEq, Repr

/-- Go struct `github.PullRequestRuleParameters`. -/
structure PullRequestRuleParameters where
  dismissStaleReviewsOnPush : Bool
  requireCodeOwnerReview : Bool
  requireLastPushApproval : Bool
  requiredApprovingReviewCount : Int
  requiredReviewThreadResolution : Bool
  deriving DecidableEq, Repr

/-- Go struct `github.RuleRequiredStatusChecks`: one parsed composite check, the
context and the optional `IntegrationID` (an `*int64`). -/
structure RuleRequiredStatusChecks where
  context : String
  integrationID : Option Int
  deriving DecidableEq, Repr

/-- Go struct `github.RequiredStatusChecksRuleParameters`. -/
structure RequiredStatusChecksRuleParameters where
  requiredStatusChecks : List RuleRequiredStatusChecks
  strictRequiredStatusChecksPolicy : Bool
  deriving DecidableEq, Repr

/-- The `json.RawMessage` parameter blob of a structured rule, kept as the
tagged union of the per-kind parameter records that the source marshals. -/
inductive RuleParameters where
  | requiredDeployments (p : RequiredDeploymentEnvironmentsRuleParameters)
  | pullRequest (p : PullRequestRuleParameters)
  | requiredStatusChecks (p : RequiredStatusChecksRuleParameters)
  deriving DecidableEq, Repr

/-- Go struct `github.RepositoryRule`: a kind discriminator and an optional
parameter blob (`Parameters` is left nil for toggle rules). -/
structure RepositoryRule where
  type : String
  parameters : Option RuleParameters
  deriving DecidableEq, Repr

/-- Go struct `github.Ruleset` as assembled by `buildRulesetRequest`. -/
structure Ruleset where
  name : String
  target : String
  sourceType : Option String
  enforcement : String
  bypassActors : Option (List BypassActor)
  conditions : Option RulesetConditions
  rules : List RepositoryRule
  deriving DecidableEq, Repr

/-- Function `expandBypassActors` (part_000 lines 48-70): absent block yields a nil
slice, a present block yields the non-nil slice with one `BypassActor` per
configured element.  The Go function's error result is always nil. -/
def expandBypassActors (cfg : Config) : Option (List BypassActor) :=
  match cfg.bypass_actors with
  | some vL => some (vL.map fun m => { actorID := m.actor_id, actorType := m.actor_type })
  | none => none

/-- The loop body of `expandConditions` (part_000 lines 80-88): fold over
the block elements, returning nil early on a null element, otherwise
overwriting the include/exclude fields of the freshly allocated
`RulesetRefConditionParameters` (zero value: both slices nil, modelled as
empty lists). -/
def conditionsLoop (acc : RulesetRefConditionParameters) :
    List (Option ConditionsBlock) → Option RulesetRefConditionParameters
  | [] => some acc
  | none :: _ => none
  | some m :: rest => conditionsLoop { Include := m.Include, Exclude := m.Exclude } rest

/-- Function `expandConditions` (part_000 lines 72-94): duplicate-block check first,
then the loop with early return on a null element. -/
def expandConditions (cfg : Config) :
    Except BuildErr (Option RulesetRefConditionParameters) :=
  match cfg.conditions with
  | some vL =>
    if vL.length > 1 then .error .duplicateConditionsBlock
    else .ok (conditionsLoop { Include := [], Exclude := [] } vL)
  | none => .ok none

/-- Go call `strings.SplitN s ":" 2` on the character list: find the first colon,
returning the pieces before and after it, or `none` when there is none. -/
def splitFirstColonAux : List Char → Option (List Char × List Char)
  | [] => none
  | c :: rest =>
    if c = ':' then some ([], rest)
    else (splitFirstColonAux rest).map fun p => (c :: p.1, p.2)

/-- Go call `strings.SplitN(statusCheck, ":", 2)` (part_000 line 197): one part when
the token has no colon, otherwise the part before the first colon and
everything after it. -/
def splitN2Colon (s : String) : List String :=
  match splitFirstColonAux s.data with
  | none => [s]
  | some (a, b) => [⟨a⟩, ⟨b⟩]

/-- Digits of a base-10 numeral to its value: `none` unless the character
list is non-empty and all digits. -/
def digitsToNat : List Char → Option Nat
  | [] => none
  | [c] => if c.isDigit then some (c.toNat - '0'.toNat) else none
  | c :: rest =>
    if c.isDigit then
      (digitsToNat rest).map fun n => (c.toNat - '0'.toNat) * 10 ^ rest.length + n
    else none

/-- Go call `strconv.Atoi` on a 64-bit platform: optional sign, non-empty digit
string, result within the int64 range, `none` on any failure. -/
def atoi (s : String) : Option Int :=
  match s.data with
  | '+' :: rest =>
    (digitsToNat rest).bind fun n =>
      if (n : Int) ≤ 2 ^ 63 - 1 then some (n : Int) else none
  | '-' :: rest =>
    (digitsToNat rest).bind fun n =>
      if (n : Int) ≤ 2 ^ 63 then some (-(n : Int)) else none
  | _ =>
    (digitsToNat s.data).bind fun n =>
      if (n : Int) ≤ 2 ^ 63 - 1 then some (n : Int) else none

/-- The per-token body of the `required_status_checks` loop (part_000 lines
196-221): split on the first colon; a missing or empty second part yields a
check with no integration id, a non-empty second part must be a valid
integer. -/
def parseStatusCheck (token : String) : Except BuildErr RuleRequiredStatusChecks :=
  match splitN2Colon token with
  | [c] =>
    .ok { context := c, integrationID := none }
  | [c, i] =>
    if i ≠ "" then
      match atoi i with
      | some n => .ok { context := c, integrationID := some n }
      | none => .error (.invalidIntegrationId i)
    else .ok { context := c, integrationID := none }
  | _ => .error (.malformedCheckToken token)

/-- The fixed toggle kind list `rules_toggleable` (part_000 lines 99-105). -/
def rulesToggleable : List String :=
  ["creation", "deletion", "required_linear_history", "required_signatures",
   "non_fast_forward"]

/-- Dispatch of `d.Get(fmt.Sprintf("rule_%s", ruleName)).(bool)` over the
toggle field names (part_000 line 107). -/
def getToggle (cfg : Config) (ruleName : String) : Bool :=
  if ruleName = "creation" then cfg.rule_creation
  else if ruleName = "deletion" then cfg.rule_deletion
  else if ruleName = "required_linear_history" then cfg.rule_required_linear_history
  else if ruleName = "required_signatures" then cfg.rule_required_signatures
  else if ruleName = "non_fast_forward" then cfg.rule_non_fast_forward
  else false

/-- The toggle loop of `expandRules` (part_000 lines 106-114): one
parameterless rule per enabled toggle, in the order of `rulesToggleable`. -/
def toggleRules (cfg : Config) : List RepositoryRule :=
  rulesToggleable.filterMap fun ruleName =>
    if getToggle cfg ruleName then some { type := ruleName, parameters := none }
    else none

/-- The `rule_required_deployments` section of `expandRules` (part_000 lines
134-151): a present set of environment names yields one rule carrying all of
them; there is no occurrence check and no error path. -/
def requiredDeploymentsRules (cfg : Config) : List RepositoryRule :=
  match cfg.rule_required_deployments with
  | some envs =>
    [{ type := "required_deployments",
       parameters := some (.requiredDeployments
         { requiredDeploymentEnvironments := envs }) }]
  | none => []

/-- The element loop of the `rule_pull_request` section (part_000 lines
158-178): break on a null element, otherwise append one rule per element. -/
def pullRequestLoop : List (Option PullRequestBlock) → List RepositoryRule
  | [] => []
  | none :: _ => []
  | some m :: rest =>
    { type := "pull_request",
      parameters := some (.pullRequest
        { dismissStaleReviewsOnPush := m.dismiss_stale_reviews_on_push,
          requireCodeOwnerReview := m.require_code_owner_review,
          requireLastPushApproval := m.require_last_push_approval,
          requiredApprovingReviewCount := m.required_approving_review_count,
          requiredReviewThreadResolution := m.required_review_thread_resolution }) }
      :: pullRequestLoop rest

/-- The `rule_pull_request` section of `expandRules` (part_000 lines
153-179): occurrence check, then the element loop. -/
def pullRequestRules (cfg : Config) : Except BuildErr (List RepositoryRule) :=
  match cfg.rule_pull_request with
  | some vL =>
    if vL.length > 1 then .error (.duplicateRuleBlock "pull_request")
    else .ok (pullRequestLoop vL)
  | none => .ok []

/-- The check-set loop of the `rule_required_status_checks` section
(part_000 lines 194-225): parse every composite token, propagating the
first failure. -/
def parseStatusChecks : List String → Except BuildErr (List RuleRequiredStatusChecks)
  | [] => .ok []
  | token :: rest =>
    match parseStatusCheck token with
    | .error e => .error e
    | .ok check =>
      match parseStatusChecks rest with
      | .error e => .error e
      | .ok checks => .ok (check :: checks)

/-- The element loop of the `rule_required_status_checks` section (part_000
lines 186-238): break on a null element, otherwise one rule per element with
the parsed check list and the strict-policy flag. -/
def statusChecksLoop : List (Option StatusChecksBlock) →
    Except BuildErr (List RepositoryRule)
  | [] => .ok []
  | none :: _ => .ok []
  | some m :: rest =>
    match parseStatusChecks m.required_status_checks with
    | .error e => .error e
    | .ok checks =>
      match statusChecksLoop rest with
      | .error e => .error e
      | .ok restRules =>
        .ok ({ type := "required_status_checks",
               parameters := some (.requiredStatusChecks
                 { requiredStatusChecks := checks,
                   strictRequiredStatusChecksPolicy :=
                     m.strict_required_status_checks_policy }) } :: restRules)

/-- The `rule_required_status_checks` section of `expandRules` (part_000
lines 181-240): occurrence check, then the element loop. -/
def statusChecksRules (cfg : Config) : Except BuildErr (List RepositoryRule) :=
  match cfg.rule_required_status_checks with
  | some vL =>
    if vL.length > 1 then .error (.duplicateRuleBlock "required_status_checks")
    else statusChecksLoop vL
  | none => .ok []

/-- Function `expandRules` (part_000 lines 96-243): the toggle rules, then
the `required_deployments`, `pull_request` and `required_status_checks`
sections, appended in that order, failing on the first section error. -/
def expandRules (cfg : Config) : Except BuildErr (List RepositoryRule) :=
  match pullRequestRules cfg with
  | .error e => .error e
  | .ok prRules =>
    match statusChecksRules cfg with
    | .error e => .error e
    | .ok rscRules =>
      .ok (toggleRules cfg ++ requiredDeploymentsRules cfg ++ prRules ++ rscRules)

/-- Function `buildRulesetRequest` (part_000 lines 14-46): assemble the
scalar fields, the bypass actors, the conditions (always wrapped in a
`RulesetConditions` whose `RefName` is the `expandConditions` result) and
the rules, propagating the first error. -/
def buildRulesetRequest (cfg : Config) (sourceType : Option String) :
    Except BuildErr Ruleset :=
  match expandConditions cfg with
  | .error e => .error e
  | .ok conditions =>
    match expandRules cfg with
    | .error e => .error e
    | .ok rules =>
      .ok { name := cfg.name,
            target := cfg.target,
            sourceType := sourceType,
            enforcement := cfg.enforcement,
            bypassActors := expandBypassActors cfg,
            conditions := some { refName := conditions },
            rules := rules }

/-- Function `flattenAndSetRulesetConditions` (part_000 lines 245-256): the
flat `conditions` value written back to state — a single-element block with
the condition's include/exclude when the remote ruleset has a non-null
ref-name condition, the empty block list otherwise. -/
def flattenRulesetConditions (ruleset : Ruleset) : List (Option ConditionsBlock) :=
  match ruleset.conditions with
  | some rc =>
    match rc.refName with
    | some ref => [some { Include := ref.Include, Exclude := ref.Exclude }]
    | none => []
  | none => []

/-- The three structured rule kinds of the spec. -/
def structuredKinds : List String :=
  ["required_deployments", "pull_request", "required_status_checks"]

/-- Spec-side description of the toggle portion of the rule list (spec §4.2
and §8): exactly one parameterless entry per toggle set true, none per
toggle set false, in the fixed kind order creation, deletion,
required_linear_history, required_signatures, non_fast_forward.  Written
from the spec's words, to be compared with `toggleRules` (from the
source). -/
def specToggleEntries (cfg : Config) : List RepositoryRule :=
  (if cfg.rule_creation then [{ type := "creation", parameters := none }] else []) ++
  (if cfg.rule_deletion then [{ type := "deletion", parameters := none }] else []) ++
  (if cfg.rule_required_linear_history then
    [{ type := "required_linear_history", parameters := none }] else []) ++
  (if cfg.rule_required_signatures then
    [{ type := "required_signatures", parameters := none }] else []) ++
  (if cfg.rule_non_fast_forward then
    [{ type := "non_fast_forward", parameters := none }] else [])

/-- A configuration with every optional block absent and every toggle off. -/
def baseConfig : Config :=
  { name := "example", target := "branch", enforcement := "active",
    bypass_actors := none, conditions := none,
    rule_creation := false, rule_deletion := false,
    rule_required_linear_history := false, rule_required_signatures := false,
    rule_non_fast_forward := false,
    rule_required_deployments := none, rule_pull_request := none,
    rule_required_status_checks := none }

/-- The ruleset that `buildRulesetRequest` assembles from `baseConfig`. -/
def rsBaseBuilt : Ruleset :=
  { name := "example", target := "branch", sourceType := none,
    enforcement := "active", bypassActors := none,
    conditions := some { refName := none }, rules := [] }

/-- Configuration with two `conditions` block elements. -/
def cfgTwoConditions : Config :=
  { baseConfig with conditions := some [none, none] }

/-- Configuration whose `conditions` block is the round-trip example of
spec §8: include `refs/heads/main`, exclude empty. -/
def cfgRoundtrip : Config :=
  { baseConfig with
    conditions := some [some { Include := ["refs/heads/main"], Exclude := [] }] }

/-- The ruleset that `buildRulesetRequest` assembles from `cfgRoundtrip`. -/
def rsRoundtrip : Ruleset :=
  { name := "example", target := "branch", sourceType := none,
    enforcement := "active", bypassActors := none,
    conditions := some { refName := some { Include := ["refs/heads/main"], Exclude := [] } },
    rules := [] }

/-- A remote ruleset carrying a non-null ref-name condition. -/
def rsWithCondition : Ruleset :=
  { name := "remote", target := "branch", sourceType := some "Repository",
    enforcement := "active", bypassActors := none,
    conditions := some { refName := some { Include := ["refs/heads/a"], Exclude := ["refs/heads/b"] } },
    rules := [] }

/-- A remote ruleset whose conditions object has a null ref-name member. -/
def rsNoCondition : Ruleset :=
  { name := "remote", target := "branch", sourceType := some "Repository",
    enforcement := "active", bypassActors := none,
    conditions := some { refName := none },
    rules := [] }

/-- Configuration with a two-element `rule_required_deployments` set. -/
def cfgTwoDeployments : Config :=
  { baseConfig with rule_required_deployments := some ["staging", "production"] }

/-- Configuration with two `rule_pull_request` block elements. -/
def cfgTwoPullRequest : Config :=
  { baseConfig with rule_pull_request := some [none, none] }

/-- Configuration with two `rule_required_status_checks` block elements. -/
def cfgTwoStatusChecks : Config :=
  { baseConfig with rule_required_status_checks := some [none, none] }

/-- Configuration whose `rule_pull_request` block has zero elements. -/
def cfgEmptyPullRequest : Config :=
  { baseConfig with rule_pull_request := some [] }

/-- Configuration whose single `rule_pull_request` element is null. -/
def cfgNullPullRequest : Config :=
  { baseConfig with rule_pull_request := some [none] }

/-- A concrete non-null `rule_pull_request` block element. -/
def prBlockW : PullRequestBlock :=
  { dismiss_stale_reviews_on_push := true, require_code_owner_review := false,
    require_last_push_approval := false, required_approving_review_count := 2,
    required_review_thread_resolution := true }

/-- Configuration with exactly one non-null `rule_pull_request` element. -/
def cfgOnePullRequest : Config :=
  { baseConfig with rule_pull_request := some [some prBlockW] }

/-- Configuration with one `rule_required_status_checks` element and one
check token. -/
def cfgOneStatusChecks : Config :=
  { baseConfig with
    rule_required_status_checks :=
      some [some { required_status_checks := ["ci/a", "ci/b:99"],
                   strict_required_status_checks_policy := true }] }

/-- Configuration enabling two toggles and one structured kind. -/
def cfgTogglesW : Config :=
  { baseConfig with
    rule_creation := true, rule_non_fast_forward := true,
    rule_required_deployments := some ["prod"] }

/-- Configuration exercising every section of `expandRules` at once. -/
def cfgAllKinds : Config :=
  { baseConfig with
    rule_deletion := true,
    rule_required_deployments := some ["prod"],
    rule_pull_request := some [some prBlockW],
    rule_required_status_checks :=
      some [some { required_status_checks := ["ci/a"],
                   strict_required_status_checks_policy := false }] }

/-! ## Helper lemmas about the individual sections of `expandRules` -/

theorem mem_toggleRules {cfg : Config} {r : RepositoryRule}
    (h : r ∈ toggleRules cfg) : r.type ∈ rulesToggleable ∧ r.parameters = none := by
  simp only [toggleRules, List.mem_filterMap] at h
  obtain ⟨ruleName, hmem, hif⟩ := h
  by_cases hg : getToggle cfg ruleName
  · rw [if_pos hg] at hif
    obtain rfl := Option.some.inj hif
    exact ⟨hmem, rfl⟩
  · rw [if_neg hg] at hif
    exact absurd hif (by simp)

theorem mem_requiredDeploymentsRules {cfg : Config} {r : RepositoryRule}
    (h : r ∈ requiredDeploymentsRules cfg) :
    r.type = "required_deployments" ∧ r.parameters ≠ none := by
  cases hd : cfg.rule_required_deployments with
  | none => simp only [requiredDeploymentsRules, hd] at h; simp at h
  | some envs =>
    simp only [requiredDeploymentsRules, hd] at h
    simp only [List.mem_singleton] at h
    subst h
    exact ⟨rfl, by simp⟩

theorem mem_pullRequestLoop : ∀ {l : List (Option PullRequestBlock)}
    {r : RepositoryRule}, r ∈ pullRequestLoop l →
    r.type = "pull_request" ∧ r.parameters ≠ none := by
  intro l
  induction l with
  | nil => intro r h; simp [pullRequestLoop] at h
  | cons hd tl ih =>
    intro r h
    cases hd with
    | none => simp [pullRequestLoop] at h
    | some m =>
      rw [pullRequestLoop] at h
      rcases List.mem_cons.mp h with h1 | h2
      · subst h1; exact ⟨rfl, by simp⟩
      · exact ih h2

theorem pullRequestRules_ok_mem {cfg : Config} {pr : List RepositoryRule}
    (h : pullRequestRules cfg = .ok pr) :
    ∀ r ∈ pr, r.type = "pull_request" ∧ r.parameters ≠ none := by
  cases hp : cfg.rule_pull_request with
  | none => simp only [pullRequestRules, hp] at h; cases h; simp
  | some vL =>
    simp only [pullRequestRules, hp] at h
    by_cases hl : vL.length > 1
    · rw [if_pos hl] at h; cases h
    · rw [if_neg hl] at h
      cases h
      intro r hr
      exact mem_pullRequestLoop hr

theorem pullRequestRules_error_shape {cfg : Config} {e : BuildErr}
    (h : pullRequestRules cfg = .error e) :
    e = .duplicateRuleBlock "pull_request" := by
  cases hp : cfg.rule_pull_request with
  | none => simp only [pullRequestRules, hp] at h; cases h
  | some vL =>
    simp only [pullRequestRules, hp] at h
    by_cases hl : vL.length > 1
    · rw [if_pos hl] at h; cases h; rfl
    · rw [if_neg hl] at h; cases h

theorem parseStatusCheck_error_shape {t : String} {e : BuildErr}
    (h : parseStatusCheck t = .error e) :
    (∃ v, e = .invalidIntegrationId v) ∨ (∃ v, e = .malformedCheckToken v) := by
  unfold parseStatusCheck at h
  split at h
  · cases h
  · split at h
    · split at h
      · cases h
      · cases h; exact Or.inl ⟨_, rfl⟩
    · cases h
  · cases h; exact Or.inr ⟨_, rfl⟩

theorem parseStatusChecks_error_shape : ∀ {l : List String} {e : BuildErr},
    parseStatusChecks l = .error e →
    (∃ v, e = .invalidIntegrationId v) ∨ (∃ v, e = .malformedCheckToken v) := by
  intro l
  induction l with
  | nil => intro e h; simp [parseStatusChecks] at h
  | cons t rest ih =>
    intro e h
    rw [parseStatusChecks] at h
    split at h
    · rename_i heq
      cases h
      exact parseStatusCheck_error_shape heq
    · split at h
      · rename_i heq
        cases h
        exact ih heq
      · cases h

theorem statusChecksLoop_ok_mem : ∀ {l : List (Option StatusChecksBlock)}
    {rs : List RepositoryRule}, statusChecksLoop l = .ok rs →
    ∀ r ∈ rs, r.type = "required_status_checks" ∧ r.parameters ≠ none := by
  intro l
  induction l with
  | nil => intro rs h; cases h; simp
  | cons hd tl ih =>
    intro rs h
    cases hd with
    | none => rw [statusChecksLoop] at h; cases h; simp
    | some m =>
      rw [statusChecksLoop] at h
      split at h
      · cases h
      · split at h
        · cases h
        · rename_i heq
          cases h
          intro r hr
          rcases List.mem_cons.mp hr with h1 | h2
          · subst h1; exact ⟨rfl, by simp⟩
          · exact ih heq r h2

theorem statusChecksLoop_error_shape : ∀ {l : List (Option StatusChecksBlock)}
    {e : BuildErr}, statusChecksLoop l = .error e →
    (∃ v, e = .invalidIntegrationId v) ∨ (∃ v, e = .malformedCheckToken v) := by
  intro l
  induction l with
  | nil => intro e h; cases h
  | cons hd tl ih =>
    intro e h
    cases hd with
    | none => rw [statusChecksLoop] at h; cases h
    | some m =>
      rw [statusChecksLoop] at h
      split at h
      · rename_i heq
        cases h
        exact parseStatusChecks_error_shape heq
      · split at h
        · rename_i heq
          cases h
          exact ih heq
        · cases h

theorem statusChecksRules_ok_mem {cfg : Config} {rs : List RepositoryRule}
    (h : statusChecksRules cfg = .ok rs) :
    ∀ r ∈ rs, r.type = "required_status_checks" ∧ r.parameters ≠ none := by
  cases hp : cfg.rule_required_status_checks with
  | none => simp only [statusChecksRules, hp] at h; cases h; simp
  | some vL =>
    simp only [statusChecksRules, hp] at h
    by_cases hl : vL.length > 1
    · rw [if_pos hl] at h; cases h
    · rw [if_neg hl] at h
      exact statusChecksLoop_ok_mem h

theorem statusChecksRules_error_shape {cfg : Config} {e : BuildErr}
    (h : statusChecksRules cfg = .error e) :
    e = .duplicateRuleBlock "required_status_checks" ∨
      (∃ v, e = .invalidIntegrationId v) ∨ (∃ v, e = .malformedCheckToken v) := by
  cases hp : cfg.rule_required_status_checks with
  | none => simp only [statusChecksRules, hp] at h; cases h
  | some vL =>
    simp only [statusChecksRules, hp] at h
    by_cases hl : vL.length > 1
    · rw [if_pos hl] at h; cases h; exact Or.inl rfl
    · rw [if_neg hl] at h
      exact Or.inr (statusChecksLoop_error_shape h)

theorem expandRules_ok_eq {cfg : Config} {l : List RepositoryRule}
    (h : expandRules cfg = .ok l) :
    ∃ pr rsc, pullRequestRules cfg = .ok pr ∧ statusChecksRules cfg = .ok rsc ∧
      l = toggleRules cfg ++ requiredDeploymentsRules cfg ++ pr ++ rsc := by
  cases hpr : pullRequestRules cfg with
  | error e =>
    simp only [expandRules, hpr] at h
    exact Except.noConfusion h
  | ok pr =>
    cases hrsc : statusChecksRules cfg with
    | error e =>
      simp only [expandRules, hpr, hrsc] at h
      exact Except.noConfusion h
    | ok rsc =>
      simp only [expandRules, hpr, hrsc] at h
      cases h
      exact ⟨pr, rsc, rfl, rfl, rfl⟩

theorem toggleRules_eq_spec (cfg : Config) : toggleRules cfg = specToggleEntries cfg := by
  cases h1 : cfg.rule_creation <;> cases h2 : cfg.rule_deletion <;>
    cases h3 : cfg.rule_required_linear_history <;>
    cases h4 : cfg.rule_required_signatures <;>
    cases h5 : cfg.rule_non_fast_forward <;>
    simp [toggleRules, rulesToggleable, specToggleEntries, getToggle,
      h1, h2, h3, h4, h5]

/-! ## Claim theorems -/

/-- C9: `expandBypassActors` returns nil (no actors) when the
`bypass_actors` block is absent, the empty non-nil sequence when the block
is present but empty, and otherwise one `BypassActor` per configured
element carrying that element's integer actor id and string actor type. -/
theorem expandBypassActors_spec (cfg : Config) :
    (cfg.bypass_actors = none → expandBypassActors cfg = none) ∧
    (cfg.bypass_actors = some [] → expandBypassActors cfg = some []) ∧
    (∀ l, cfg.bypass_actors = some l →
      expandBypassActors cfg =
        some (l.map fun m => { actorID := m.actor_id, actorType := m.actor_type })) := by
  refine ⟨fun h => ?_, fun h => ?_, fun l h => ?_⟩ <;>
    simp [expandBypassActors, h]

/-- Witness for C9 at concrete inputs. -/
theorem expandBypassActors_spec_witness :
    expandBypassActors baseConfig = none ∧
    expandBypassActors { baseConfig with bypass_actors := some [] } = some [] ∧
    expandBypassActors
        { baseConfig with bypass_actors := some [{ actor_id := 5, actor_type := "Team" }] } =
      some [{ actorID := 5, actorType := "Team" }] :=
  ⟨(expandBypassActors_spec baseConfig).1 rfl,
   (expandBypassActors_spec _).2.1 rfl,
   (expandBypassActors_spec _).2.2 [{ actor_id := 5, actor_type := "Team" }] rfl⟩

/-- C8: `expandConditions` fails with `DuplicateConditionsBlock` whenever
the `conditions` block holds more than one element (the duplicate check
runs before the null check, so it fires even on null elements), returns
"no condition" when the block is absent, and treats a present block whose
single element is null as "no condition". -/
theorem expandConditions_spec (cfg : Config) :
    (∀ l, cfg.conditions = some l → 1 < l.length →
      expandConditions cfg = .error .duplicateConditionsBlock) ∧
    (cfg.conditions = none → expandConditions cfg = .ok none) ∧
    (cfg.conditions = some [none] → expandConditions cfg = .ok none) := by
  refine ⟨fun l h hl => ?_, fun h => ?_, fun h => ?_⟩
  · simp [expandConditions, h, hl]
  · simp [expandConditions, h]
  · simp [expandConditions, h, conditionsLoop]

/-- Witness for C8 at concrete inputs, among them a two-element block both
of whose elements are null. -/
theorem expandConditions_spec_witness :
    expandConditions cfgTwoConditions = .error .duplicateConditionsBlock ∧
    expandConditions baseConfig = .ok none ∧
    expandConditions { baseConfig with conditions := some [none] } = .ok none :=
  ⟨(expandConditions_spec cfgTwoConditions).1 [none, none] rfl (by decide),
   (expandConditions_spec baseConfig).2.1 rfl,
   (expandConditions_spec _).2.2 rfl⟩

/-- C7: the state flattener emits a single-element block carrying the
condition's include and exclude sequences when the remote ruleset has a
non-null ref-name condition, and otherwise the empty block list — a list in
both cases, never an absent value. -/
theorem flattenRulesetConditions_spec (rs : Ruleset) :
    (∀ ref, (rs.conditions.bind fun rc => rc.refName) = some ref →
      flattenRulesetConditions rs =
        [some { Include := ref.Include, Exclude := ref.Exclude }]) ∧
    ((rs.conditions.bind fun rc => rc.refName) = none →
      flattenRulesetConditions rs = []) := by
  constructor
  · intro ref h
    cases hc : rs.conditions with
    | none =>
      rw [hc] at h
      exact Option.noConfusion h
    | some rc =>
      rw [hc] at h
      have h2 : rc.refName = some ref := h
      simp [flattenRulesetConditions, hc, h2]
  · intro h
    cases hc : rs.conditions with
    | none => simp [flattenRulesetConditions, hc]
    | some rc =>
      rw [hc] at h
      have h2 : rc.refName = none := h
      simp [flattenRulesetConditions, hc, h2]

/-- Witness for C7: a ruleset with a ref-name condition and one without. -/
theorem flattenRulesetConditions_spec_witness :
    flattenRulesetConditions rsWithCondition =
      [some { Include := ["refs/heads/a"], Exclude := ["refs/heads/b"] }] ∧
    flattenRulesetConditions rsNoCondition = [] :=
  ⟨(flattenRulesetConditions_spec rsWithCondition).1
      { Include := ["refs/heads/a"], Exclude := ["refs/heads/b"] } rfl,
   (flattenRulesetConditions_spec rsNoCondition).2 rfl⟩

/-- C6: round-trip — building from the block
with include `refs/heads/main` and empty exclude, flattening the built
condition and feeding the flat result back through the condition builder
reproduces the same include and exclude sets. -/
theorem conditions_roundtrip :
    buildRulesetRequest cfgRoundtrip none = .ok rsRoundtrip ∧
    flattenRulesetConditions rsRoundtrip =
      [some { Include := ["refs/heads/main"], Exclude := [] }] ∧
    expandConditions
        { cfgRoundtrip with conditions := some (flattenRulesetConditions rsRoundtrip) } =
      .ok (some { Include := ["refs/heads/main"], Exclude := [] }) ∧
    expandConditions cfgRoundtrip =
      .ok (some { Include := ["refs/heads/main"], Exclude := [] }) :=
  ⟨rfl, rfl, rfl, rfl⟩

/-- C2 counterexample: the token `ci/test:` splits into exactly two parts
whose second part is empty and parses as no base-10 integer, yet the parser
succeeds with an absent integration id instead of failing with
`InvalidIntegrationId`. -/
theorem parseStatusCheck_empty_id_counterexample :
    splitN2Colon "ci/test:" = ["ci/test", ""] ∧
    atoi "" = none ∧
    parseStatusCheck "ci/test:" = .ok { context := "ci/test", integrationID := none } := by
  refine ⟨by decide, rfl, rfl⟩

/-- C2 (amended): the composite-check parser splits on the first colon into
at most two parts; exactly one part yields the part as context with an
absent integration id; exactly two parts with a non-empty second part
requires the second part to parse as a base-10 integer, failing with
`InvalidIntegrationId(value)` on parse failure and yielding the parsed
int64 on success; exactly two parts with an empty second part (a trailing
colon) yields an absent integration id without failing.  In particular
`ci/test:12345` parses to context `ci/test` with integration id 12345,
`ci/test` parses with the id absent, and `ci/test:abc` fails. -/
theorem parseStatusCheck_spec (token : String) :
    ((splitN2Colon token).length = 1 ∨ (splitN2Colon token).length = 2) ∧
    (∀ c, splitN2Colon token = [c] →
      parseStatusCheck token = .ok { context := c, integrationID := none }) ∧
    (∀ c, splitN2Colon token = [c, ""] →
      parseStatusCheck token = .ok { context := c, integrationID := none }) ∧
    (∀ c i n, splitN2Colon token = [c, i] → atoi i = some n →
      parseStatusCheck token = .ok { context := c, integrationID := some n }) ∧
    (∀ c i, splitN2Colon token = [c, i] → i ≠ "" → atoi i = none →
      parseStatusCheck token = .error (.invalidIntegrationId i)) ∧
    parseStatusCheck "ci/test:12345" =
      .ok { context := "ci/test", integrationID := some 12345 } ∧
    parseStatusCheck "ci/test" = .ok { context := "ci/test", integrationID := none } ∧
    parseStatusCheck "ci/test:abc" = .error (.invalidIntegrationId "abc") := by
  refine ⟨?_, fun c h => ?_, fun c h => ?_, fun c i n h hn => ?_,
    fun c i h hi hn => ?_, rfl, rfl, rfl⟩
  · unfold splitN2Colon
    cases hs : splitFirstColonAux token.data with
    | none => simp
    | some p => simp
  · simp [parseStatusCheck, h]
  · simp [parseStatusCheck, h]
  · have hi : i ≠ "" := by
      rintro rfl
      rw [show atoi "" = none from rfl] at hn
      cases hn
    simp [parseStatusCheck, h, hi, hn]
  · simp [parseStatusCheck, h, hi, hn]

/-- Witness for C2 at a concrete token with a non-empty integration id. -/
theorem parseStatusCheck_spec_witness :
    parseStatusCheck "build:77" = .ok { context := "build", integrationID := some 77 } := by
  exact (parseStatusCheck_spec "build:77").2.2.2.1 "build" "77" 77 (by decide) rfl

/-- C1: for every configuration without a `conditions` block, the assembled
request carries no ref-name condition — its conditions wrapper holds
`refName = none`, i.e. the spec-level optional Condition is absent — and a
configuration supplying two `conditions` blocks makes the build fail with
`DuplicateConditionsBlock`. -/
theorem buildRulesetRequest_conditions_spec (cfg : Config) (st : Option String) :
    (cfg.conditions = none → ∀ rs, buildRulesetRequest cfg st = .ok rs →
      rs.conditions = some { refName := none }) ∧
    (∀ b1 b2 rest, cfg.conditions = some (b1 :: b2 :: rest) →
      buildRulesetRequest cfg st = .error .duplicateConditionsBlock) := by
  constructor
  · intro h rs hrs
    have hc : expandConditions cfg = .ok none := by simp [expandConditions, h]
    cases he : expandRules cfg with
    | error e =>
      simp only [buildRulesetRequest, hc, he] at hrs
      exact Except.noConfusion hrs
    | ok rules =>
      simp only [buildRulesetRequest, hc, he] at hrs
      cases hrs
      rfl
  · intro b1 b2 rest h
    have hlen : 1 < (b1 :: b2 :: rest).length := by
      simp [List.length_cons]
    have hc : expandConditions cfg = .error .duplicateConditionsBlock := by
      simp [expandConditions, h, hlen]
    simp [buildRulesetRequest, hc]

/-- Witness for C1: the base configuration builds with an absent ref-name
condition, and the two-block configuration fails. -/
theorem buildRulesetRequest_conditions_spec_witness :
    rsBaseBuilt.conditions = some { refName := none } ∧
    buildRulesetRequest cfgTwoConditions none = .error .duplicateConditionsBlock :=
  ⟨(buildRulesetRequest_conditions_spec baseConfig none).1 rfl rsBaseBuilt rfl,
   (buildRulesetRequest_conditions_spec cfgTwoConditions none).2 none none [] rfl⟩

/-- C3 counterexample: the `rule_required_deployments` block of
`cfgTwoDeployments` holds two elements, yet `expandRules` succeeds with a
single required-deployments entry instead of failing with
`DuplicateRuleBlock`. -/
theorem requiredDeployments_two_elements_counterexample :
    cfgTwoDeployments.rule_required_deployments = some ["staging", "production"] ∧
    expandRules cfgTwoDeployments =
      .ok [{ type := "required_deployments",
             parameters := some (.requiredDeployments
               { requiredDeploymentEnvironments := ["staging", "production"] }) }] :=
  ⟨rfl, rfl⟩

/-- C3 (amended): for the structured kinds `pull_request` and
`required_status_checks`, supplying more than one element in the kind's
configuration block makes the build fail with `DuplicateRuleBlock(kind)`
(the pull-request check runs first), and supplying zero elements emits no
rule entry of that kind and no error from that section; the
`required_deployments` block, by contrast, is a plain set of environment
names with no occurrence check — the build never fails with
`DuplicateRuleBlock("required_deployments")` and any present block emits
exactly one entry carrying all its elements. -/
theorem duplicate_rule_block_spec (cfg : Config) :
    (∀ vL, cfg.rule_pull_request = some vL → 1 < vL.length →
      expandRules cfg = .error (.duplicateRuleBlock "pull_request")) ∧
    (∀ vL, cfg.rule_required_status_checks = some vL → 1 < vL.length →
      (∀ vP, cfg.rule_pull_request = some vP → vP.length ≤ 1) →
      expandRules cfg = .error (.duplicateRuleBlock "required_status_checks")) ∧
    (cfg.rule_pull_request = some [] →
      pullRequestRules cfg = .ok [] ∧
      ∀ l, expandRules cfg = .ok l → ∀ r ∈ l, r.type ≠ "pull_request") ∧
    (cfg.rule_required_status_checks = some [] →
      statusChecksRules cfg = .ok [] ∧
      ∀ l, expandRules cfg = .ok l → ∀ r ∈ l, r.type ≠ "required_status_checks") ∧
    (expandRules cfg ≠ .error (.duplicateRuleBlock "required_deployments") ∧
      ∀ envs, cfg.rule_required_deployments = some envs →
        requiredDeploymentsRules cfg =
          [{ type := "required_deployments",
             parameters := some (.requiredDeployments
               { requiredDeploymentEnvironments := envs }) }]) := by
  refine ⟨fun vL h hl => ?_, fun vL h hl hP => ?_, fun h => ⟨?_, ?_⟩,
    fun h => ⟨?_, ?_⟩, ?_, fun envs h => ?_⟩
  · have hpr : pullRequestRules cfg = .error (.duplicateRuleBlock "pull_request") := by
      simp [pullRequestRules, h, hl]
    simp [expandRules, hpr]
  · obtain ⟨pr, hpr⟩ : ∃ pr, pullRequestRules cfg = .ok pr := by
      cases hp : cfg.rule_pull_request with
      | none => exact ⟨[], by simp [pullRequestRules, hp]⟩
      | some vP =>
        have h1 := hP vP hp
        have hnot : ¬vP.length > 1 := by omega
        exact ⟨pullRequestLoop vP, by simp [pullRequestRules, hp, hnot]⟩
    have hrsc : statusChecksRules cfg =
        .error (.duplicateRuleBlock "required_status_checks") := by
      simp [statusChecksRules, h, hl]
    simp [expandRules, hpr, hrsc]
  · simp [pullRequestRules, h, pullRequestLoop]
  · intro l hl r hr heq
    obtain ⟨pr, rsc, hpr, hrsc, rfl⟩ := expandRules_ok_eq hl
    have hpr0 : pullRequestRules cfg = .ok [] := by
      simp [pullRequestRules, h, pullRequestLoop]
    rw [hpr0] at hpr
    obtain rfl : ([] : List RepositoryRule) = pr := Except.ok.inj hpr
    rcases List.mem_append.mp hr with h1 | h2
    · rcases List.mem_append.mp h1 with h3 | h4
      · rcases List.mem_append.mp h3 with h5 | h6
        · have := (mem_toggleRules h5).1
          rw [heq] at this
          exact absurd this (by decide)
        · have := (mem_requiredDeploymentsRules h6).1
          rw [heq] at this
          exact absurd this (by decide)
      · cases h4
    · have := (statusChecksRules_ok_mem hrsc r h2).1
      rw [heq] at this
      exact absurd this (by decide)
  · simp [statusChecksRules, h, statusChecksLoop]
  · intro l hl r hr heq
    obtain ⟨pr, rsc, hpr, hrsc, rfl⟩ := expandRules_ok_eq hl
    have hrsc0 : statusChecksRules cfg = .ok [] := by
      simp [statusChecksRules, h, statusChecksLoop]
    rw [hrsc0] at hrsc
    obtain rfl : ([] : List RepositoryRule) = rsc := Except.ok.inj hrsc
    rcases List.mem_append.mp hr with h1 | h2
    · rcases List.mem_append.mp h1 with h3 | h4
      · rcases List.mem_append.mp h3 with h5 | h6
        · have := (mem_toggleRules h5).1
          rw [heq] at this
          exact absurd this (by decide)
        · have := (mem_requiredDeploymentsRules h6).1
          rw [heq] at this
          exact absurd this (by decide)
      · have := (pullRequestRules_ok_mem hpr r h4).1
        rw [heq] at this
        exact absurd this (by decide)
    · cases h2
  · intro hcontra
    cases hpr : pullRequestRules cfg with
    | error e =>
      have he : expandRules cfg = .error e := by simp [expandRules, hpr]
      rw [he] at hcontra
      have := pullRequestRules_error_shape hpr
      rw [this] at hcontra
      exact absurd (Except.error.inj hcontra) (by decide)
    | ok pr =>
      cases hrsc : statusChecksRules cfg with
      | error e =>
        have he : expandRules cfg = .error e := by simp [expandRules, hpr, hrsc]
        rw [he] at hcontra
        rcases statusChecksRules_error_shape hrsc with h1 | ⟨v, h1⟩ | ⟨v, h1⟩ <;>
          rw [h1] at hcontra <;>
          exact absurd (Except.error.inj hcontra) (by simp)
      | ok rsc =>
        have he : expandRules cfg = .ok (toggleRules cfg ++
            requiredDeploymentsRules cfg ++ pr ++ rsc) := by
          simp [expandRules, hpr, hrsc]
        rw [he] at hcontra
        exact Except.noConfusion hcontra
  · simp [requiredDeploymentsRules, h]

/-- Witness for C3: two-element pull-request and status-check blocks fail
with the corresponding duplicate errors; an empty pull-request block yields
no entry and no error. -/
theorem duplicate_rule_block_spec_witness :
    expandRules cfgTwoPullRequest = .error (.duplicateRuleBlock "pull_request") ∧
    expandRules cfgTwoStatusChecks =
      .error (.duplicateRuleBlock "required_status_checks") ∧
    pullRequestRules cfgEmptyPullRequest = .ok [] :=
  ⟨(duplicate_rule_block_spec cfgTwoPullRequest).1 [none, none] rfl (by decide),
   (duplicate_rule_block_spec cfgTwoStatusChecks).2.1 [none, none] rfl (by decide)
     (fun vP h => Option.noConfusion h),
   ((duplicate_rule_block_spec cfgEmptyPullRequest).2.2.1 rfl).1⟩

theorem countP_eq_zero_of_ne {l : List RepositoryRule} {s : String}
    (h : ∀ r ∈ l, r.type ≠ s) : (l.countP fun r => r.type == s) = 0 := by
  rw [List.countP_eq_zero]
  intro r hr
  simpa using h r hr

theorem countP_toggle_ne {cfg : Config} {s : String} (hs : s ∉ rulesToggleable) :
    ((toggleRules cfg).countP fun r => r.type == s) = 0 :=
  countP_eq_zero_of_ne fun r hr heq => hs (heq ▸ (mem_toggleRules hr).1)

theorem countP_dep_ne {cfg : Config} {s : String} (hs : s ≠ "required_deployments") :
    ((requiredDeploymentsRules cfg).countP fun r => r.type == s) = 0 :=
  countP_eq_zero_of_ne fun r hr heq =>
    hs (heq.symm.trans (mem_requiredDeploymentsRules hr).1)

theorem countP_pr_ne {cfg : Config} {pr : List RepositoryRule}
    (hpr : pullRequestRules cfg = .ok pr) {s : String} (hs : s ≠ "pull_request") :
    (pr.countP fun r => r.type == s) = 0 :=
  countP_eq_zero_of_ne fun r hr heq =>
    hs (heq.symm.trans (pullRequestRules_ok_mem hpr r hr).1)

theorem countP_rsc_ne {cfg : Config} {rsc : List RepositoryRule}
    (hrsc : statusChecksRules cfg = .ok rsc) {s : String}
    (hs : s ≠ "required_status_checks") :
    (rsc.countP fun r => r.type == s) = 0 :=
  countP_eq_zero_of_ne fun r hr heq =>
    hs (heq.symm.trans (statusChecksRules_ok_mem hrsc r hr).1)

/-- C4 counterexample: the `rule_pull_request` block of
`cfgNullPullRequest` holds exactly one element — a null one — yet
`expandRules` emits no rule entry at all, in particular no pull-request
entry. -/
theorem pullRequest_null_element_counterexample :
    cfgNullPullRequest.rule_pull_request = some [none] ∧
    expandRules cfgNullPullRequest = .ok [] :=
  ⟨rfl, rfl⟩

/-- C4 (amended): a structured-rule configuration block containing exactly
one non-null element causes exactly one RuleEntry of that kind to be
emitted (for `required_deployments`, any present block causes exactly one
entry); a block whose single element is null causes no entry of that kind
to be emitted. -/
theorem single_element_rule_entry_spec (cfg : Config) :
    (∀ b, cfg.rule_pull_request = some [some b] →
      ∀ l, expandRules cfg = .ok l →
        (l.countP fun r => r.type == "pull_request") = 1) ∧
    (∀ b, cfg.rule_required_status_checks = some [some b] →
      ∀ l, expandRules cfg = .ok l →
        (l.countP fun r => r.type == "required_status_checks") = 1) ∧
    (∀ envs, cfg.rule_required_deployments = some envs →
      ∀ l, expandRules cfg = .ok l →
        (l.countP fun r => r.type == "required_deployments") = 1) ∧
    (cfg.rule_pull_request = some [none] →
      ∀ l, expandRules cfg = .ok l →
        (l.countP fun r => r.type == "pull_request") = 0) ∧
    (cfg.rule_required_status_checks = some [none] →
      ∀ l, expandRules cfg = .ok l →
        (l.countP fun r => r.type == "required_status_checks") = 0) := by
  refine ⟨fun b h l hl => ?_, fun b h l hl => ?_, fun envs h l hl => ?_,
    fun h l hl => ?_, fun h l hl => ?_⟩
  · obtain ⟨pr, rsc, hpr, hrsc, rfl⟩ := expandRules_ok_eq hl
    have hpr0 : pullRequestRules cfg = .ok (pullRequestLoop [some b]) := by
      simp [pullRequestRules, h]
    rw [hpr0] at hpr
    obtain rfl := Except.ok.inj hpr
    simp only [List.countP_append]
    rw [countP_toggle_ne (by decide), countP_dep_ne (by decide),
      countP_rsc_ne hrsc (by decide)]
    simp [pullRequestLoop, List.countP_cons]
  · obtain ⟨pr, rsc, hpr, hrsc, rfl⟩ := expandRules_ok_eq hl
    have hrsc0 : statusChecksRules cfg = statusChecksLoop [some b] := by
      simp [statusChecksRules, h]
    rw [hrsc0] at hrsc
    rw [statusChecksLoop] at hrsc
    split at hrsc
    · exact Except.noConfusion hrsc
    · split at hrsc
      · exact Except.noConfusion hrsc
      · rename_i checks heq restRules heq2
        obtain rfl := Except.ok.inj hrsc
        simp only [List.countP_append]
        rw [countP_toggle_ne (by decide), countP_dep_ne (by decide),
          countP_pr_ne hpr (by decide)]
        have : restRules = [] := by
          rw [statusChecksLoop] at heq2
          exact (Except.ok.inj heq2).symm
        subst this
        simp [List.countP_cons]
  · obtain ⟨pr, rsc, hpr, hrsc, rfl⟩ := expandRules_ok_eq hl
    have hd : requiredDeploymentsRules cfg =
        [{ type := "required_deployments",
           parameters := some (.requiredDeployments
             { requiredDeploymentEnvironments := envs }) }] := by
      simp [requiredDeploymentsRules, h]
    simp only [List.countP_append]
    rw [hd, countP_toggle_ne (by decide), countP_pr_ne hpr (by decide),
      countP_rsc_ne hrsc (by decide)]
    simp [List.countP_cons]
  · obtain ⟨pr, rsc, hpr, hrsc, rfl⟩ := expandRules_ok_eq hl
    have hpr0 : pullRequestRules cfg = .ok [] := by
      simp [pullRequestRules, h, pullRequestLoop]
    rw [hpr0] at hpr
    obtain rfl := Except.ok.inj hpr
    simp only [List.countP_append]
    rw [countP_toggle_ne (by decide), countP_dep_ne (by decide),
      countP_rsc_ne hrsc (by decide)]
    simp
  · obtain ⟨pr, rsc, hpr, hrsc, rfl⟩ := expandRules_ok_eq hl
    have hrsc0 : statusChecksRules cfg = .ok [] := by
      simp [statusChecksRules, h, statusChecksLoop]
    rw [hrsc0] at hrsc
    obtain rfl := Except.ok.inj hrsc
    simp only [List.countP_append]
    rw [countP_toggle_ne (by decide), countP_dep_ne (by decide),
      countP_pr_ne hpr (by decide)]
    simp

/-- Witness for C4: one non-null pull-request element emits exactly one
pull-request entry; a single null element emits none. -/
theorem single_element_rule_entry_spec_witness :
    (([{ type := "pull_request",
         parameters := some (.pullRequest
           { dismissStaleReviewsOnPush := true, requireCodeOwnerReview := false,
             requireLastPushApproval := false, requiredApprovingReviewCount := 2,
             requiredReviewThreadResolution := true }) }] :
       List RepositoryRule).countP fun r => r.type == "pull_request") = 1 ∧
    (([] : List RepositoryRule).countP fun r => r.type == "pull_request") = 0 :=
  ⟨(single_element_rule_entry_spec cfgOnePullRequest).1 prBlockW rfl _ rfl,
   (single_element_rule_entry_spec cfgNullPullRequest).2.2.2.1 rfl _ rfl⟩

/-- C5: for every toggle assignment, an `expandRules` success starts with
exactly one parameterless entry per toggle set true and none per toggle set
false, in the fixed kind order creation, deletion, required_linear_history,
required_signatures, non_fast_forward (`specToggleEntries`, written from
the spec), and everything after that prefix is a structured entry — so all
toggle entries precede all structured entries. -/
theorem expandRules_toggle_entries (cfg : Config) (l : List RepositoryRule)
    (h : expandRules cfg = .ok l) :
    ∃ tail, l = specToggleEntries cfg ++ tail ∧
      ∀ r ∈ tail, r.type ∈ structuredKinds ∧ r.parameters ≠ none := by
  obtain ⟨pr, rsc, hpr, hrsc, rfl⟩ := expandRules_ok_eq h
  refine ⟨requiredDeploymentsRules cfg ++ pr ++ rsc, ?_, ?_⟩
  · rw [← toggleRules_eq_spec]
    simp [List.append_assoc]
  · intro r hr
    rcases List.mem_append.mp hr with h1 | h2
    · rcases List.mem_append.mp h1 with h3 | h4
      · have hm := mem_requiredDeploymentsRules h3
        exact ⟨by rw [hm.1]; decide, hm.2⟩
      · have hm := pullRequestRules_ok_mem hpr r h4
        exact ⟨by rw [hm.1]; decide, hm.2⟩
    · have hm := statusChecksRules_ok_mem hrsc r h2
      exact ⟨by rw [hm.1]; decide, hm.2⟩

/-- Witness for C5 at a configuration with two toggles on and a
deployments block. -/
theorem expandRules_toggle_entries_witness :
    ∃ tail,
      ([{ type := "creation", parameters := none },
        { type := "non_fast_forward", parameters := none },
        { type := "required_deployments",
          parameters := some (.requiredDeployments
            { requiredDeploymentEnvironments := ["prod"] }) }] :
        List RepositoryRule) = specToggleEntries cfgTogglesW ++ tail ∧
      ∀ r ∈ tail, r.type ∈ structuredKinds ∧ r.parameters ≠ none :=
  expandRules_toggle_entries cfgTogglesW _ rfl

/-- C10: every `expandRules` success decomposes as toggle entries, then
required-deployments entries, then pull-request entries, then
required-status-checks entries — the structured kinds appear in that fixed
relative order, after all toggle entries. -/
theorem expandRules_structured_order (cfg : Config) (l : List RepositoryRule)
    (h : expandRules cfg = .ok l) :
    ∃ t d p s, l = t ++ d ++ p ++ s ∧
      (∀ r ∈ t, r.type ∈ rulesToggleable ∧ r.parameters = none) ∧
      (∀ r ∈ d, r.type = "required_deployments") ∧
      (∀ r ∈ p, r.type = "pull_request") ∧
      (∀ r ∈ s, r.type = "required_status_checks") := by
  obtain ⟨pr, rsc, hpr, hrsc, rfl⟩ := expandRules_ok_eq h
  exact ⟨toggleRules cfg, requiredDeploymentsRules cfg, pr, rsc, rfl,
    fun _ hr => mem_toggleRules hr,
    fun _ hr => (mem_requiredDeploymentsRules hr).1,
    fun r hr => (pullRequestRules_ok_mem hpr r hr).1,
    fun r hr => (statusChecksRules_ok_mem hrsc r hr).1⟩

/-- Witness for C10 at a configuration exercising all four sections. -/
theorem expandRules_structured_order_witness :
    ∃ t d p s,
      ([{ type := "deletion", parameters := none },
        { type := "required_deployments",
          parameters := some (.requiredDeployments
            { requiredDeploymentEnvironments := ["prod"] }) },
        { type := "pull_request",
          parameters := some (.pullRequest
            { dismissStaleReviewsOnPush := true, requireCodeOwnerReview := false,
              requireLastPushApproval := false, requiredApprovingReviewCount := 2,
              requiredReviewThreadResolution := true }) },
        { type := "required_status_checks",
          parameters := some (.requiredStatusChecks
            { requiredStatusChecks := [{ context := "ci/a", integrationID := none }],
              strictRequiredStatusChecksPolicy := false }) }] :
        List RepositoryRule) = t ++ d ++ p ++ s ∧
      (∀ r ∈ t, r.type ∈ rulesToggleable ∧ r.parameters = none) ∧
      (∀ r ∈ d, r.type = "required_deployments") ∧
      (∀ r ∈ p, r.type = "pull_request") ∧
      (∀ r ∈ s, r.type = "required_status_checks") :=
  expandRules_structured_order cfgAllKinds _ rfl

end GithubRuleset
